import Mathlib

/-!
Verification of the dynamic query / response-caching layer of the
nestjs-boilerplate repository: the `QueryTodoDto` validation pattern, the
`TodoService` query construction and write operations, the response shaper,
and the TTL cache with deterministic key derivation.  Definitions are a
shallow embedding of the TypeScript source; components whose implementation
is not present in the repository snapshot (the `IsIncludeOnlyKeys` /
`IsIncludeOnlyValues` validators, `th.toInstancesSafe`, and the
`AppCacheInterceptor`) are modelled from the specification, as marked on
their doc comments.
-/

namespace NQ

/-- The recognized sort directions, `Object.values(Prisma.SortOrder)`. -/
def sortOrders : List String := ["asc", "desc"]

/-- Per-entity metadata: scalar field allow-list, relation field allow-list,
primary key name. -/
structure EntitySchema where
  scalarFields : List String
  relationFields : List String
  primaryKey : String
deriving Repr, DecidableEq

/-- The Todo entity schema: `Object.values(Prisma.TodoScalarFieldEnum)` per the
Prisma schema conventions (id, createdAt, updatedAt, profileId) plus the
`TodoEntity` fields title, description, done; relation field `profile`. -/
def todoSchema : EntitySchema :=
  { scalarFields := ["id", "createdAt", "updatedAt", "title", "description", "done", "profileId"]
  , relationFields := ["profile"]
  , primaryKey := "id" }

/-- The raw, untrusted query request, mirroring `QueryTodoDto`: `where` is a
record whose values (scalar predicate or nested operator sub-mapping) are an
arbitrary type `α` the builder never inspects; `sort` maps field names to
direction strings; `select` and `include` are lists of field names; `skip`
and `take` are numbers. -/
structure RawQueryRequest (α : Type) where
  whereQ : Option (List (String × α))
  sortQ : Option (List (String × String))
  selectQ : Option (List String)
  includeQ : Option (List String)
  skip : Option Int
  take : Option Int

/-- Projection mode of a validated query. -/
inductive Projection where
  | all : Projection
  | sel : List String → Projection
  | inc : List String → Projection
deriving Repr, DecidableEq

/-- Projection resolution from `TodoService.getTodos`:
`...(select ? { select: ... } : include ? { include: ... } : {})`. -/
def projectionOf (selectQ includeQ : Option (List String)) : Projection :=
  match selectQ with
  | some fs => Projection.sel fs
  | none =>
    match includeQ with
    | some rs => Projection.inc rs
    | none => Projection.all

/-- The validated, storage-agnostic query descriptor handed to the storage
executor (the argument object of `prisma.todo.findMany`). -/
structure QueryDescriptor (α : Type) where
  whereQ : Option (List (String × α))
  sortQ : Option (List (String × String))
  projection : Projection
  skip : Option Int
  take : Option Int

/-- Modelled from the spec: the `IsIncludeOnlyKeys` validator implementation is
not in the repository snapshot (only its uses in `QueryTodoDto`); per the spec
it accumulates and reports ALL names absent from the allow-list, not just the
first. -/
def offenders (keys allowed : List String) : List String :=
  keys.filter (fun k => !(allowed.contains k))

/-- Modelled from the spec: the `IsIncludeOnlyValues` validator implementation
is not in the repository snapshot; per the spec each sort value must be one of
the two recognized sort directions, and unrecognized values are reported. -/
def badDirections (l : List (String × String)) : List String :=
  (l.filter (fun p => !(sortOrders.contains p.2))).map (fun p => p.2)

/-- Top-level keys of an optional record, an absent record having none. -/
def optKeys {α : Type} (o : Option (List (String × α))) : List String :=
  (o.getD []).map Prod.fst

/-- Modelled from the spec: the aggregated validation error (ValidationPipe
behavior, not in the snapshot) enumerating every violation found. -/
structure ValidationError where
  offenders : List String
deriving Repr, DecidableEq

/-- All validation problems of a raw request against a schema, in order:
`where` keys, `sort` keys, `sort` direction values, `select` keys against the
scalar allow-list; `include` keys against the relation allow-list. -/
def buildErrors {α : Type} (raw : RawQueryRequest α) (s : EntitySchema) : List String :=
  offenders (optKeys raw.whereQ) s.scalarFields
    ++ (offenders (optKeys raw.sortQ) s.scalarFields
    ++ (badDirections (raw.sortQ.getD [])
    ++ (offenders (raw.selectQ.getD []) s.scalarFields
    ++ offenders (raw.includeQ.getD []) s.relationFields)))

/-- The query descriptor builder: validation of a `QueryTodoDto` followed by
the construction in `TodoService.getTodos`.  Fails with the single aggregated
`ValidationError` when any problem exists; otherwise passes `where`, `sort`,
`skip`, `take` through and resolves the projection. -/
def build {α : Type} (raw : RawQueryRequest α) (s : EntitySchema) :
    Except ValidationError (QueryDescriptor α) :=
  if (buildErrors raw s).isEmpty then
    Except.ok
      { whereQ := raw.whereQ
      , sortQ := raw.sortQ
      , projection := projectionOf raw.selectQ raw.includeQ
      , skip := raw.skip
      , take := raw.take }
  else
    Except.error { offenders := buildErrors raw s }

/-- The read pipeline: validation happens before the storage executor is
consulted (`findMany` is reached only for a valid descriptor). -/
def runQuery {α R : Type} (raw : RawQueryRequest α) (s : EntitySchema)
    (exec : QueryDescriptor α → List R) : Except ValidationError (List R) :=
  match build raw s with
  | Except.error e => Except.error e
  | Except.ok d => Except.ok (exec d)

/-- Scalar field names referenced by a descriptor: `where` keys, `sort` keys,
and the `select` projection list. -/
def QueryDescriptor.scalarRefs {α : Type} (d : QueryDescriptor α) : List String :=
  optKeys d.whereQ ++ optKeys d.sortQ ++
    (match d.projection with
     | Projection.sel fs => fs
     | _ => [])

/-- Relation field names referenced by a descriptor: the `include` list. -/
def QueryDescriptor.relationRefs {α : Type} (d : QueryDescriptor α) : List String :=
  match d.projection with
  | Projection.inc rs => rs
  | _ => []

example :
    (build { whereQ := some [("title", "x")], sortQ := some [("done", "asc")]
           , selectQ := none, includeQ := some ["profile"]
           , skip := some 0, take := some 3 } todoSchema).isOk = true := by decide

example :
    (build { whereQ := some [("bogus", "x")], sortQ := none
           , selectQ := none, includeQ := none
           , skip := none, take := none } (α := String) todoSchema).isOk = false := by decide

lemma mem_offenders {k : String} {keys allowed : List String} :
    k ∈ offenders keys allowed ↔ k ∈ keys ∧ k ∉ allowed := by
  simp [offenders]

lemma offenders_nil {keys allowed : List String} (h : ∀ k ∈ keys, k ∈ allowed) :
    offenders keys allowed = [] := by
  simp only [offenders, List.filter_eq_nil_iff]
  intro a ha
  simpa using h a ha

lemma badDirections_nil {l : List (String × String)}
    (h : ∀ p ∈ l, p.2 ∈ sortOrders) : badDirections l = [] := by
  simp only [badDirections, List.map_eq_nil_iff, List.filter_eq_nil_iff]
  intro a ha
  simpa using h a ha

lemma buildErrors_nil {α : Type} {raw : RawQueryRequest α} {s : EntitySchema}
    (hw : ∀ k ∈ optKeys raw.whereQ, k ∈ s.scalarFields)
    (hs : ∀ k ∈ optKeys raw.sortQ, k ∈ s.scalarFields)
    (hd : ∀ p ∈ raw.sortQ.getD [], p.2 ∈ sortOrders)
    (hse : ∀ k ∈ raw.selectQ.getD [], k ∈ s.scalarFields)
    (hin : ∀ k ∈ raw.includeQ.getD [], k ∈ s.relationFields) :
    buildErrors raw s = [] := by
  simp only [buildErrors, List.append_eq_nil]
  exact ⟨offenders_nil hw, offenders_nil hs, badDirections_nil hd,
    offenders_nil hse, offenders_nil hin⟩

lemma build_eq_ok {α : Type} {raw : RawQueryRequest α} {s : EntitySchema}
    (h : buildErrors raw s = []) :
    build raw s = Except.ok
      { whereQ := raw.whereQ, sortQ := raw.sortQ
      , projection := projectionOf raw.selectQ raw.includeQ
      , skip := raw.skip, take := raw.take } := by
  simp [build, h]

lemma build_eq_error {α : Type} {raw : RawQueryRequest α} {s : EntitySchema}
    (h : buildErrors raw s ≠ []) :
    build raw s = Except.error { offenders := buildErrors raw s } := by
  simp [build, h]

lemma build_ok_fields {α : Type} {raw : RawQueryRequest α} {s : EntitySchema}
    {d : QueryDescriptor α} (h : build raw s = Except.ok d) :
    d.whereQ = raw.whereQ ∧ d.sortQ = raw.sortQ
      ∧ d.projection = projectionOf raw.selectQ raw.includeQ
      ∧ d.skip = raw.skip ∧ d.take = raw.take := by
  unfold build at h
  split at h
  · cases h
    exact ⟨rfl, rfl, rfl, rfl, rfl⟩
  · cases h

/-- The raw request `sort: \x7b title: "bogus" \x7d`: all of its `where`, `sort`
and `select` keys lie in the Todo scalar allow-list and all of its `include`
keys in the relation allow-list, yet the builder rejects it, because the sort
direction value is unrecognized. -/
def c1Raw : RawQueryRequest String :=
  { whereQ := none, sortQ := some [("title", "bogus")]
  , selectQ := none, includeQ := none, skip := none, take := none }

/-- C1 counterexample: a request whose `where`/`sort`/`select` keys all lie in
the scalar allow-list and whose `include` keys all lie in the relation
allow-list, on which validation nevertheless fails (unrecognized sort
direction), refuting the claim as stated. -/
theorem c1_counterexample :
    (∀ k ∈ optKeys c1Raw.whereQ, k ∈ todoSchema.scalarFields)
    ∧ (∀ k ∈ optKeys c1Raw.sortQ, k ∈ todoSchema.scalarFields)
    ∧ (∀ k ∈ c1Raw.selectQ.getD [], k ∈ todoSchema.scalarFields)
    ∧ (∀ k ∈ c1Raw.includeQ.getD [], k ∈ todoSchema.relationFields)
    ∧ (build c1Raw todoSchema).isOk = false := by
  refine ⟨?_, ?_, ?_, ?_, ?_⟩ <;> decide

/-- C1 (amended): if additionally every sort direction value is recognized,
the builder succeeds, and every field name referenced in the resulting
descriptor is in the schema's allowed set (scalar fields for
filter/sort/select, relation fields for include). -/
theorem c1_build_success_and_allowed {α : Type} (raw : RawQueryRequest α) (s : EntitySchema)
    (hw : ∀ k ∈ optKeys raw.whereQ, k ∈ s.scalarFields)
    (hs : ∀ k ∈ optKeys raw.sortQ, k ∈ s.scalarFields)
    (hd : ∀ p ∈ raw.sortQ.getD [], p.2 ∈ sortOrders)
    (hse : ∀ k ∈ raw.selectQ.getD [], k ∈ s.scalarFields)
    (hin : ∀ k ∈ raw.includeQ.getD [], k ∈ s.relationFields) :
    ∃ d, build raw s = Except.ok d
      ∧ (∀ f ∈ QueryDescriptor.scalarRefs d, f ∈ s.scalarFields)
      ∧ (∀ r ∈ QueryDescriptor.relationRefs d, r ∈ s.relationFields) := by
  refine ⟨_, build_eq_ok (buildErrors_nil hw hs hd hse hin), ?_, ?_⟩
  · intro f hf
    simp only [QueryDescriptor.scalarRefs, List.mem_append] at hf
    rcases hf with (hf | hf) | hf
    · exact hw f hf
    · exact hs f hf
    · revert hf
      cases hsel : raw.selectQ with
      | none =>
        cases raw.includeQ <;> simp [projectionOf]
      | some fs =>
        intro hf
        simp only [projectionOf] at hf
        refine hse f ?_
        simp [hsel, hf]
  · intro r hr
    revert hr
    cases hsel : raw.selectQ with
    | none =>
      cases hinc : raw.includeQ with
      | none => simp [QueryDescriptor.relationRefs, projectionOf]
      | some rs =>
        intro hr
        simp only [QueryDescriptor.relationRefs, projectionOf] at hr
        refine hin r ?_
        simp [hinc, hr]
    | some fs => simp [QueryDescriptor.relationRefs, projectionOf]

/-- C1 witness: the amended theorem applied at a concrete valid request. -/
theorem c1_witness :
    ∃ d, build { whereQ := some [("title", "x")], sortQ := some [("done", "asc")]
               , selectQ := none, includeQ := some ["profile"]
               , skip := some 0, take := some 3 } todoSchema = Except.ok d
      ∧ (∀ f ∈ QueryDescriptor.scalarRefs d, f ∈ todoSchema.scalarFields)
      ∧ (∀ r ∈ QueryDescriptor.relationRefs d, r ∈ todoSchema.relationFields) :=
  c1_build_success_and_allowed _ todoSchema (by decide) (by decide) (by decide)
    (by decide) (by decide)

/-- C2: any field name absent from its applicable allow-list — among `where`
keys, `sort` keys, `select` keys (scalar allow-list) or `include` keys
(relation allow-list) — makes the builder fail with the single aggregated
`ValidationError`, and that error names this offending field (hence every
offending field, as the theorem holds for each); moreover the failure occurs
before any storage call: the pipeline result does not depend on the executor. -/
theorem c2_error_names_every_offender {α R : Type} (raw : RawQueryRequest α)
    (s : EntitySchema) (k : String)
    (hk : (k ∈ optKeys raw.whereQ ∧ k ∉ s.scalarFields)
        ∨ (k ∈ optKeys raw.sortQ ∧ k ∉ s.scalarFields)
        ∨ (k ∈ raw.selectQ.getD [] ∧ k ∉ s.scalarFields)
        ∨ (k ∈ raw.includeQ.getD [] ∧ k ∉ s.relationFields)) :
    (∃ e, build raw s = Except.error e ∧ k ∈ e.offenders)
    ∧ ∀ (ex ex' : QueryDescriptor α → List R),
        runQuery raw s ex = runQuery raw s ex' := by
  have hmem : k ∈ buildErrors raw s := by
    simp only [buildErrors, List.mem_append]
    rcases hk with h | h | h | h
    · exact Or.inl (mem_offenders.mpr h)
    · exact Or.inr (Or.inl (mem_offenders.mpr h))
    · exact Or.inr (Or.inr (Or.inr (Or.inl (mem_offenders.mpr h))))
    · exact Or.inr (Or.inr (Or.inr (Or.inr (mem_offenders.mpr h))))
  have hne : buildErrors raw s ≠ [] := by
    intro hnil
    rw [hnil] at hmem
    exact List.not_mem_nil k hmem
  have herr := build_eq_error hne
  refine ⟨⟨_, herr, hmem⟩, ?_⟩
  intro ex ex'
  simp [runQuery, herr]

/-- The raw request `where: \x7b bogus: "1" \x7d`. -/
def c2Raw : RawQueryRequest String :=
  { whereQ := some [("bogus", "1")], sortQ := none
  , selectQ := none, includeQ := none, skip := none, take := none }

/-- C2 witness: on a concrete request with an unknown `where` key, the builder
errors naming the key and the pipeline never consults the executor. -/
theorem c2_witness :
    (∃ e, build c2Raw todoSchema = Except.error e ∧ "bogus" ∈ e.offenders)
    ∧ runQuery (R := Nat) c2Raw todoSchema (fun _ => [1])
        = runQuery c2Raw todoSchema (fun _ => [2]) := by
  have h := c2_error_names_every_offender (R := Nat) c2Raw todoSchema "bogus"
    (Or.inl (by decide))
  exact ⟨h.1, h.2 _ _⟩

/-- The raw request `skip: -1, take: -1`. -/
def c3Raw : RawQueryRequest String :=
  { whereQ := none, sortQ := none, selectQ := none, includeQ := none
  , skip := some (-1), take := some (-1) }

/-- C3 counterexample: a request supplying `skip = -1` and `take = -1` passes
validation (the DTO only applies `IsNumber`, with no non-negativity check),
refuting the claim that `-1` is rejected. -/
theorem c3_counterexample : (build c3Raw todoSchema).isOk = true := by decide

/-- C3 (amended): `skip` and `take` are not validated at all beyond being
numbers: the set of validation errors is independent of their values, so `0`
is accepted and so is `-1` (and any negative integer) whenever the rest of
the request is valid; on success the values are passed through unchanged. -/
theorem c3_skip_take_unvalidated {α : Type} (raw : RawQueryRequest α)
    (s : EntitySchema) (v w : Option Int) :
    buildErrors { raw with skip := v, take := w } s = buildErrors raw s
    ∧ (∀ d, build { raw with skip := v, take := w } s = Except.ok d →
        d.skip = v ∧ d.take = w) := by
  constructor
  · rfl
  · intro d hd
    have h := build_ok_fields hd
    exact ⟨h.2.2.2.1, h.2.2.2.2⟩

/-- C3 witness: the amended theorem at a concrete request with negative
pagination values, which the builder accepts unchanged. -/
theorem c3_witness :
    buildErrors c3Raw todoSchema
        = buildErrors { c3Raw with skip := none, take := none } todoSchema
    ∧ (build c3Raw todoSchema).isOk = true
    ∧ ∀ d, build c3Raw todoSchema = Except.ok d →
        d.skip = some (-1) ∧ d.take = some (-1) := by
  have h := c3_skip_take_unvalidated (α := String)
    { c3Raw with skip := none, take := none } todoSchema (some (-1)) (some (-1))
  exact ⟨h.1.symm, by decide, h.2⟩

/-- The raw request `select: ["title"], include: ["bogus"]`. -/
def c4Raw : RawQueryRequest String :=
  { whereQ := none, sortQ := none
  , selectQ := some ["title"], includeQ := some ["bogus"]
  , skip := none, take := none }

/-- C4 counterexample: a request with both `select` and `include` present does
NOT always resolve without a caller-visible error — the `include` keys are
still validated against the relation allow-list even though `select` wins the
projection, so `select: ["title"], include: ["bogus"]` fails validation. -/
theorem c4_counterexample :
    c4Raw.selectQ = some ["title"] ∧ c4Raw.includeQ = some ["bogus"]
    ∧ (build c4Raw todoSchema).isOk = false := by
  refine ⟨rfl, rfl, ?_⟩
  decide

/-- C4 (amended): `select` wins the projection precedence deterministically —
whenever the builder succeeds with `select` present, the projection is
`SELECT(select)` and the `include` list does not influence it; with neither
present the projection is `ALL`; the co-presence of the two never adds an
error by itself, but `include` keys are still allow-list validated, so a
disallowed `include` key remains a caller-visible failure. -/
theorem c4_select_precedence {α : Type} (raw : RawQueryRequest α) (s : EntitySchema) :
    (∀ fs, raw.selectQ = some fs →
      (projectionOf raw.selectQ raw.includeQ = Projection.sel fs
       ∧ ∀ d, build raw s = Except.ok d → d.projection = Projection.sel fs))
    ∧ (raw.selectQ = none → raw.includeQ = none →
        ∀ d, build raw s = Except.ok d → d.projection = Projection.all) := by
  constructor
  · intro fs hfs
    have hp : projectionOf raw.selectQ raw.includeQ = Projection.sel fs := by
      rw [hfs]
      rfl
    refine ⟨hp, ?_⟩
    intro d hd
    rw [(build_ok_fields hd).2.2.1, hp]
  · intro hse hin d hd
    rw [(build_ok_fields hd).2.2.1, hse, hin]
    rfl

/-- C4 witness: with `select: ["title"]` and `include: ["profile"]` both
present and valid, the build succeeds with the SELECT projection. -/
theorem c4_witness :
    (projectionOf (some ["title"]) (some ["profile"]) = Projection.sel ["title"]
     ∧ ∀ d, build { whereQ := none, sortQ := none, selectQ := some ["title"]
                  , includeQ := some ["profile"], skip := none, take := none }
              (α := String) todoSchema = Except.ok d →
        d.projection = Projection.sel ["title"])
    ∧ (build { whereQ := none, sortQ := none, selectQ := some ["title"]
             , includeQ := some ["profile"], skip := none, take := none }
          (α := String) todoSchema).isOk = true := by
  refine ⟨?_, by decide⟩
  exact (c4_select_precedence (α := String)
    { whereQ := none, sortQ := none, selectQ := some ["title"]
    , includeQ := some ["profile"], skip := none, take := none } todoSchema).1
    ["title"] rfl

/-- C5: any sort entry whose direction value is not one of the two recognized
sort directions makes the builder fail, and the aggregated error reports the
unrecognized value. -/
theorem c5_sort_direction_validated {α : Type} (raw : RawQueryRequest α)
    (s : EntitySchema) (f v : String)
    (hm : (f, v) ∈ raw.sortQ.getD []) (hv : v ∉ sortOrders) :
    ∃ e, build raw s = Except.error e ∧ v ∈ e.offenders := by
  have hbd : v ∈ badDirections (raw.sortQ.getD []) := by
    simp only [badDirections, List.mem_map]
    refine ⟨(f, v), ?_, rfl⟩
    simp only [List.mem_filter]
    exact ⟨hm, by simpa using hv⟩
  have hmem : v ∈ buildErrors raw s := by
    simp only [buildErrors, List.mem_append]
    exact Or.inr (Or.inr (Or.inl hbd))
  have hne : buildErrors raw s ≠ [] := by
    intro hnil
    rw [hnil] at hmem
    exact List.not_mem_nil v hmem
  exact ⟨_, build_eq_error hne, hmem⟩

/-- C5 witness: the sort direction `"sideways"` on a valid key is rejected and
reported. -/
theorem c5_witness :
    ∃ e, build { whereQ := none, sortQ := some [("title", "sideways")]
               , selectQ := none, includeQ := none, skip := none, take := none }
          (α := String) todoSchema = Except.error e ∧ "sideways" ∈ e.offenders :=
  c5_sort_direction_validated _ todoSchema "title" "sideways" (by decide) (by decide)

/-- Mapping an arbitrary function over the `where` values (scalar predicates
or nested operator sub-mappings) of a raw request, leaving keys intact. -/
def RawQueryRequest.mapWhere {α β : Type} (g : α → β) (raw : RawQueryRequest α) :
    RawQueryRequest β :=
  { whereQ := raw.whereQ.map (List.map (fun p => (p.1, g p.2)))
  , sortQ := raw.sortQ, selectQ := raw.selectQ, includeQ := raw.includeQ
  , skip := raw.skip, take := raw.take }

/-- C6: the builder validates only the top-level `where` keys and treats the
associated values as opaque — replacing every `where` value by any function
of it leaves the validation outcome unchanged (so operator names inside
nested sub-mappings are never validated), and on success the filter handed to
the storage executor is exactly the raw `where` mapping, unaltered. -/
theorem c6_where_passthrough {α β : Type} (g : α → β) (raw : RawQueryRequest α)
    (s : EntitySchema) :
    buildErrors (raw.mapWhere g) s = buildErrors raw s
    ∧ (∀ d, build raw s = Except.ok d → d.whereQ = raw.whereQ) := by
  constructor
  · have hk : optKeys (raw.mapWhere g).whereQ = optKeys raw.whereQ := by
      cases hw : raw.whereQ with
      | none => simp [RawQueryRequest.mapWhere, optKeys, hw]
      | some l =>
        simp [RawQueryRequest.mapWhere, optKeys, hw, List.map_map, Function.comp]
    simp only [buildErrors, hk]
    rfl
  · intro d hd
    exact (build_ok_fields hd).1

/-- C6 witness: the theorem at a concrete request whose `where` value is a
nested operator sub-mapping, with a value-rewriting function. -/
theorem c6_witness :
    buildErrors (RawQueryRequest.mapWhere (fun v => v ++ "!")
        { whereQ := some [("title", "startsWith:Test")], sortQ := none
        , selectQ := none, includeQ := none, skip := none, take := none })
        todoSchema
      = buildErrors
        { whereQ := some [("title", "startsWith:Test")], sortQ := none
        , selectQ := none, includeQ := none, skip := none, take := none }
        todoSchema
    ∧ ∀ d, build { whereQ := some [("title", "startsWith:Test")], sortQ := none
                 , selectQ := none, includeQ := none, skip := none, take := none }
          todoSchema = Except.ok d →
        d.whereQ = some [("title", "startsWith:Test")] :=
  c6_where_passthrough (fun v => v ++ "!")
    { whereQ := some [("title", "startsWith:Test")], sortQ := none
    , selectQ := none, includeQ := none, skip := none, take := none } todoSchema

/-- Modelled from the spec: the response shaper (`th.toInstancesSafe` with the
entity's `Expose` contract, not in the repository snapshot) — the set of keys
a shaped record may carry: `SELECT(fields)` emits the named fields plus the
primary key; `INCLUDE(relations)` emits all scalar fields plus the named
relations; `ALL` emits the entity's full exposed field set. -/
def keySetOf {α : Type} (d : QueryDescriptor α) (s : EntitySchema) : List String :=
  match d.projection with
  | Projection.sel fs => fs ++ [s.primaryKey]
  | Projection.inc rs => s.scalarFields ++ rs
  | Projection.all => s.scalarFields ++ s.relationFields

/-- Modelled from the spec: shaping one raw record — keep exactly the entries
whose key is in the projection's key set, dropping unexposed fields. -/
def shapeRecord {α β : Type} (r : List (String × β)) (d : QueryDescriptor α)
    (s : EntitySchema) : List (String × β) :=
  r.filter (fun p => (keySetOf d s).contains p.1)

/-- Modelled from the spec: the response shaper over a list of records
(`th.toInstancesSafe`). -/
def shape {α β : Type} (rs : List (List (String × β))) (d : QueryDescriptor α)
    (s : EntitySchema) : List (List (String × β)) :=
  rs.map (fun r => shapeRecord r d s)

lemma shapeRecord_idem {α β : Type} (r : List (String × β)) (d : QueryDescriptor α)
    (s : EntitySchema) : shapeRecord (shapeRecord r d s) d s = shapeRecord r d s := by
  simp [shapeRecord, List.filter_filter]

/-- C7: the response shaper is idempotent — shaping an already-shaped record
list again with the same descriptor and schema is a no-op. -/
theorem c7_shape_idempotent {α β : Type} (rs : List (List (String × β)))
    (d : QueryDescriptor α) (s : EntitySchema) :
    shape (shape rs d s) d s = shape rs d s := by
  simp only [shape, List.map_map, Function.comp]
  refine List.map_congr_left ?_
  intro r _
  exact shapeRecord_idem r d s

/-- A cache entry: key, stored value, absolute expiry timestamp. -/
structure CacheEntry (V : Type) where
  key : String
  value : V
  expiry : Nat
deriving Repr, DecidableEq

/-- Modelled from the spec: cache lookup with lazy eviction — an entry is a
hit only while `now < expiry`; entries at or past expiry behave as absent
(`AppCacheInterceptor` over the cache-manager store, not in the snapshot). -/
def lookupCache {V : Type} (st : List (CacheEntry V)) (k : String) (now : Nat) :
    Option V :=
  (st.find? (fun e => e.key == k && decide (now < e.expiry))).map CacheEntry.value

/-- Modelled from the spec: the cached read wrapper — on hit return the cached
value, untouched store, no storage call (and no TTL refresh); on miss invoke
the storage operation (`op`), store it with expiry `now + ttl`, and report
that storage was called (the Bool component). -/
def cached {V : Type} (st : List (CacheEntry V)) (k : String) (ttl now : Nat)
    (op : V) : V × List (CacheEntry V) × Bool :=
  match lookupCache st k now with
  | some v => (v, st, false)
  | none => (op, { key := k, value := op, expiry := now + ttl } :: st, true)

/-- C8: with ttl = 2000 and a store whose entries for key `k` are all expired
by time `t`: the call at `t` misses, invokes storage and stores the result
with expiry `t + 2000`; a repeat call at any `t2` within the ttl returns the
identical cached value without a storage call and without refreshing the
expiry (store unchanged); a repeat call at any `t3` at or past `t + 2000`
misses again and triggers a fresh storage call. -/
theorem c8_cache_ttl_lifecycle {V : Type} (st : List (CacheEntry V)) (k : String)
    (t t2 t3 : Nat) (op op2 op3 : V)
    (hold : ∀ e ∈ st, e.key = k → e.expiry ≤ t)
    (h2 : t2 < t + 2000) (h3 : t + 2000 ≤ t3) :
    cached st k 2000 t op
      = (op, { key := k, value := op, expiry := t + 2000 } :: st, true)
    ∧ cached ({ key := k, value := op, expiry := t + 2000 } :: st) k 2000 t2 op2
      = (op, { key := k, value := op, expiry := t + 2000 } :: st, false)
    ∧ (cached ({ key := k, value := op, expiry := t + 2000 } :: st) k 2000 t3 op3).2.2
      = true := by
  have hmiss : ∀ (u : Nat), t ≤ u →
      lookupCache st k u = none := by
    intro u hu
    simp only [lookupCache, Option.map_eq_none', List.find?_eq_none]
    intro e he
    simp only [Bool.and_eq_true, beq_iff_eq, decide_eq_true_eq, not_and]
    intro hk
    exact Nat.not_lt.mpr (Nat.le_trans (hold e he hk) hu)
  refine ⟨?_, ?_, ?_⟩
  · simp [cached, hmiss t (Nat.le_refl t)]
  · have hhit : lookupCache ({ key := k, value := op, expiry := t + 2000 } :: st)
        k t2 = some op := by
      simp [lookupCache, List.find?_cons, h2]
    simp [cached, hhit]
  · have hnone : lookupCache ({ key := k, value := op, expiry := t + 2000 } :: st)
        k t3 = none := by
      simp only [lookupCache, Option.map_eq_none', List.find?_eq_none]
      intro e he
      simp only [List.mem_cons] at he
      simp only [Bool.and_eq_true, beq_iff_eq, decide_eq_true_eq, not_and]
      intro hk
      rcases he with he | he
      · subst he
        exact Nat.not_lt.mpr h3
      · exact Nat.not_lt.mpr
          (Nat.le_trans (hold e he hk) (Nat.le_trans (Nat.le_add_right t 2000) h3))
    simp [cached, hnone]

/-- C8 witness: the lifecycle on an empty store at times 0, 1999, 2000. -/
theorem c8_witness :
    cached ([] : List (CacheEntry Nat)) "todo" 2000 0 42
      = (42, [{ key := "todo", value := 42, expiry := 2000 }], true)
    ∧ cached [{ key := "todo", value := 42, expiry := 2000 }] "todo" 2000 1999 43
      = (42, [{ key := "todo", value := 42, expiry := 2000 }], false)
    ∧ (cached [{ key := "todo", value := 42, expiry := 2000 }] "todo" 2000 2000 44).2.2
      = true := by
  have h := c8_cache_ttl_lifecycle ([] : List (CacheEntry Nat)) "todo" 0 1999 2000
    42 43 44 (by simp) (by decide) (by decide)
  simpa using h

/-- Lexicographic comparison of record entries: by key, then by value. -/
def pairLe (p q : String × String) : Prop :=
  p.1 < q.1 ∨ (p.1 = q.1 ∧ p.2 ≤ q.2)

instance : DecidableRel pairLe := fun p q =>
  inferInstanceAs (Decidable (p.1 < q.1 ∨ (p.1 = q.1 ∧ p.2 ≤ q.2)))

instance : IsTotal (String × String) pairLe where
  total p q := by
    rcases lt_trichotomy p.1 q.1 with h | h | h
    · exact Or.inl (Or.inl h)
    · rcases le_total p.2 q.2 with h2 | h2
      · exact Or.inl (Or.inr ⟨h, h2⟩)
      · exact Or.inr (Or.inr ⟨h.symm, h2⟩)
    · exact Or.inr (Or.inl h)

instance : IsTrans (String × String) pairLe where
  trans p q r hpq hqr := by
    rcases hpq with h1 | ⟨h1, h1v⟩
    · rcases hqr with h2 | ⟨h2, _⟩
      · exact Or.inl (lt_trans h1 h2)
      · exact Or.inl (h2 ▸ h1)
    · rcases hqr with h2 | ⟨h2, h2v⟩
      · exact Or.inl (h1 ▸ h2)
      · exact Or.inr ⟨h1.trans h2, le_trans h1v h2v⟩

instance : IsAntisymm (String × String) pairLe where
  antisymm p q hpq hqp := by
    rcases hpq with h1 | ⟨h1, h1v⟩
    · rcases hqp with h2 | ⟨h2, _⟩
      · exact absurd (lt_trans h1 h2) (lt_irrefl p.1)
      · exact absurd h1 (h2 ▸ lt_irrefl q.1)
    · rcases hqp with h2 | ⟨h2, h2v⟩
      · exact absurd h2 (h1 ▸ lt_irrefl p.1)
      · exact Prod.ext h1 (le_antisymm h1v h2v)

/-- Modelled from the spec: canonical ordering of a record's entries before
serialization ("must serialize maps with sorted keys"). -/
def canonical (l : List (String × String)) : List (String × String) :=
  List.insertionSort pairLe l

lemma canonical_eq_of_perm {l l' : List (String × String)} (h : l.Perm l') :
    canonical l = canonical l' :=
  List.eq_of_perm_of_sorted
    ((List.perm_insertionSort pairLe l).trans
      (h.trans (List.perm_insertionSort pairLe l').symm))
    (List.sorted_insertionSort pairLe l)
    (List.sorted_insertionSort pairLe l')

/-- Modelled from the spec: serialization of a record mapping, entries in
canonical (sorted) order. -/
def serializePairs (l : List (String × String)) : String :=
  (canonical l).foldr (fun p acc => p.1 ++ ":" ++ p.2 ++ ";" ++ acc) ""

/-- Serialization of an optional record mapping. -/
def serializeRecord (o : Option (List (String × String))) : String :=
  match o with
  | none => "_"
  | some l => serializePairs l

/-- Serialization of a plain name list (an ordered array, not an object). -/
def serializeNames (l : List String) : String :=
  l.foldr (fun x acc => x ++ "," ++ acc) ""

/-- Serialization of the projection mode. -/
def serializeProjection (p : Projection) : String :=
  match p with
  | Projection.all => "ALL"
  | Projection.sel fs => "SELECT(" ++ serializeNames fs ++ ")"
  | Projection.inc rs => "INCLUDE(" ++ serializeNames rs ++ ")"

/-- Serialization of an optional pagination number. -/
def serializeNum (o : Option Int) : String :=
  match o with
  | none => "_"
  | some n => toString n

/-- Modelled from the spec: the default cache key derivation — a deterministic
serialization of (route identity, QueryDescriptor) with record maps
serialized under sorted keys (the `AppCacheInterceptor` default is not in the
repository snapshot). -/
def deriveKey (route : String) (d : QueryDescriptor String) : String :=
  route ++ "?" ++ serializeRecord d.whereQ
    ++ "|" ++ serializeRecord d.sortQ
    ++ "|" ++ serializeProjection d.projection
    ++ "|" ++ serializeNum d.skip
    ++ "|" ++ serializeNum d.take

/-- Two optional record mappings with the same bindings, possibly listed in
different orders. -/
def permOpt (o o' : Option (List (String × String))) : Prop :=
  match o, o' with
  | none, none => True
  | some l, some l' => l.Perm l'
  | _, _ => False

lemma serializeRecord_permOpt {o o' : Option (List (String × String))}
    (h : permOpt o o') : serializeRecord o = serializeRecord o' := by
  match o, o' with
  | none, none => rfl
  | some l, some l' =>
    have hp : l.Perm l' := h
    simp only [serializeRecord, serializePairs, canonical_eq_of_perm hp]
  | none, some l' => exact absurd h (by simp [permOpt])
  | some l, none => exact absurd h (by simp [permOpt])

/-- C9: the default key derivation is deterministic under object-key ordering —
two descriptors with the same filter, sort, projection and pagination values
whose record literals list their keys in different orders derive the same
cache key. -/
theorem c9_cache_key_order_independent (route : String)
    (d d' : QueryDescriptor String)
    (hw : permOpt d.whereQ d'.whereQ) (hs : permOpt d.sortQ d'.sortQ)
    (hp : d.projection = d'.projection) (hsk : d.skip = d'.skip)
    (ht : d.take = d'.take) :
    deriveKey route d = deriveKey route d' := by
  simp only [deriveKey, serializeRecord_permOpt hw, serializeRecord_permOpt hs,
    hp, hsk, ht]

/-- C9 witness: the theorem at two concrete descriptors whose `where` and
`sort` records swap their entry order. -/
theorem c9_witness :
    deriveKey "GET:todo"
      { whereQ := some [("done", "true"), ("title", "x")]
      , sortQ := some [("id", "asc"), ("title", "desc")]
      , projection := Projection.all, skip := some 0, take := some 3 }
      = deriveKey "GET:todo"
      { whereQ := some [("title", "x"), ("done", "true")]
      , sortQ := some [("title", "desc"), ("id", "asc")]
      , projection := Projection.all, skip := some 0, take := some 3 } :=
  c9_cache_key_order_independent "GET:todo" _ _
    (List.Perm.swap _ _ _) (List.Perm.swap _ _ _) rfl rfl rfl

/-- The authenticated user, as far as the write operations consult it. -/
structure User where
  id : Int
  profileId : Int
deriving Repr, DecidableEq

/-- `CreateTodoDto`: title and optional description — no profileId field, so a
client-supplied value can never set it. -/
structure CreateTodoDto where
  title : String
  description : Option String
deriving Repr, DecidableEq

/-- `UpdateTodoDto`: the creatable fields, made optional. -/
structure UpdateTodoDto where
  title : Option String
  description : Option String
deriving Repr, DecidableEq

/-- A stored Todo row. -/
structure Todo where
  id : Int
  createdAt : Nat
  updatedAt : Nat
  title : String
  description : Option String
  done : Bool
  profileId : Int
deriving Repr, DecidableEq

/-- `TodoService.createTodo`: spreads the dto and sets
`profileId: user.profileId`. -/
def createTodo (dto : CreateTodoDto) (user : User) (newId : Int) (now : Nat) :
    Todo :=
  { id := newId, createdAt := now, updatedAt := now
  , title := dto.title, description := dto.description
  , done := false, profileId := user.profileId }

/-- The match condition `where: \x7b id, profileId: user.profileId \x7d` used by
`updateTodo` and `deleteTodo`. -/
def matchesIdProfile (r : Todo) (i : Int) (user : User) : Bool :=
  r.id == i && r.profileId == user.profileId

/-- Applying an `UpdateTodoDto` to a row (Prisma `data: dto`). -/
def applyUpdate (r : Todo) (dto : UpdateTodoDto) (now : Nat) : Todo :=
  { r with
    title := dto.title.getD r.title
    description :=
      match dto.description with
      | none => r.description
      | some d => some d
    updatedAt := now }

/-- `TodoService.updateTodo`: update the rows matching both id and the
caller's profileId, leaving every other row untouched. -/
def updateTodo (db : List Todo) (i : Int) (dto : UpdateTodoDto) (user : User)
    (now : Nat) : List Todo :=
  db.map (fun r => if matchesIdProfile r i user then applyUpdate r dto now else r)

/-- `TodoService.deleteTodo`: delete the rows matching both id and the
caller's profileId. -/
def deleteTodo (db : List Todo) (i : Int) (user : User) : List Todo :=
  db.filter (fun r => !(matchesIdProfile r i user))

/-- C10: every write is scoped to the caller's profile — a created row always
carries the caller's profileId (for any dto, which has no profileId field);
and any row whose profileId differs from the caller's is left exactly in
place by updateTodo and survives deleteTodo. -/
theorem c10_writes_profile_scoped (dto : CreateTodoDto) (upd : UpdateTodoDto)
    (user : User) (db : List Todo) (i newId : Int) (now : Nat) :
    (createTodo dto user newId now).profileId = user.profileId
    ∧ (∀ (n : Nat) (r : Todo), db[n]? = some r → r.profileId ≠ user.profileId →
        (updateTodo db i upd user now)[n]? = some r)
    ∧ (∀ r ∈ db, r.profileId ≠ user.profileId → r ∈ deleteTodo db i user) := by
  refine ⟨rfl, ?_, ?_⟩
  · intro n r hn hne
    have hm : matchesIdProfile r i user = false := by
      simp only [matchesIdProfile, Bool.and_eq_false_iff, beq_eq_false_iff_ne]
      exact Or.inr hne
    simp [updateTodo, List.getElem?_map, hn, hm]
  · intro r hr hne
    have hm : matchesIdProfile r i user = false := by
      simp only [matchesIdProfile, Bool.and_eq_false_iff, beq_eq_false_iff_ne]
      exact Or.inr hne
    simp only [deleteTodo, List.mem_filter]
    exact ⟨hr, by simp [hm]⟩

/-- C10 witness: the theorem at a concrete database holding a foreign-profile
row, which create cannot impersonate, update leaves in place and delete
spares. -/
theorem c10_witness :
    (createTodo { title := "t", description := none }
      { id := 1, profileId := 7 } 10 5).profileId = 7
    ∧ (∀ (n : Nat) (r : Todo),
        [{ id := 10, createdAt := 0, updatedAt := 0, title := "x"
         , description := none, done := false, profileId := 9 : Todo }][n]?
            = some r →
        r.profileId ≠ 7 →
        (updateTodo
          [{ id := 10, createdAt := 0, updatedAt := 0, title := "x"
           , description := none, done := false, profileId := 9 : Todo }]
          10 { title := some "y", description := none }
          { id := 1, profileId := 7 } 5)[n]? = some r)
    ∧ (∀ r ∈ [{ id := 10, createdAt := 0, updatedAt := 0, title := "x"
              , description := none, done := false, profileId := 9 : Todo }],
        r.profileId ≠ 7 →
        r ∈ deleteTodo
          [{ id := 10, createdAt := 0, updatedAt := 0, title := "x"
           , description := none, done := false, profileId := 9 : Todo }]
          10 { id := 1, profileId := 7 }) :=
  c10_writes_profile_scoped { title := "t", description := none }
    { title := some "y", description := none } { id := 1, profileId := 7 }
    [{ id := 10, createdAt := 0, updatedAt := 0, title := "x"
     , description := none, done := false, profileId := 9 }] 10 10 5

end NQ
